import Mathlib

/-!
Shallow embedding of the Blood Bank Management DBMS (`src/main.go`, Go +
SQLite).  SQL tables become Lean lists of row records, `QueryRow` becomes
`List.find?` (row ids and the `blood_type_id` inventory key are unique in
every database the program builds, so first-match agrees with SQLite), and
`UPDATE ... WHERE` becomes `List.map` guarded by the WHERE predicate.  Go
`int` is modelled as `Int`; `deleted_at TEXT` (NULL-able) as `Option String`.
Each HTTP POST handler from `main` becomes a function from a store and the
parsed form values to a result (`redirect` on success, or the flash
`message` rendered by `renderWithMessage`) together with the updated store.
-/

namespace BloodBank

/-- Go `unicode.IsSpace` restricted to the ASCII whitespace characters,
which are the only ones relevant to the claims. -/
def goIsSpace (c : Char) : Bool :=
  c = ' ' || c = '\t' || c = '\n' || c = '\x0b' || c = '\x0c' || c = '\r'

/-- Go `strings.ToUpper` on a single character (ASCII range; SQLite's
`UPPER`, used by the migration, is ASCII-only as well). -/
def goToUpperChar (c : Char) : Char :=
  if 'a' ≤ c && c ≤ 'z' then Char.ofNat (c.toNat - 32) else c

/-- Go `strings.TrimSpace` on a character list. -/
def goTrimSpace (l : List Char) : List Char :=
  ((l.dropWhile goIsSpace).reverse.dropWhile goIsSpace).reverse

/-- Go `strings.TrimSpace`. -/
def trimSpace (s : String) : String :=
  String.mk (goTrimSpace s.data)

/-- `normalizeBloodType` from main.go: `strings.ToUpper(strings.TrimSpace(value))`. -/
def normalizeBloodType (value : String) : String :=
  String.mk ((goTrimSpace value.data).map goToUpperChar)

/-- Row of the `donors` table. -/
structure DonorRow where
  id : Int
  name : String
  bloodTypeID : Int
  phone : String
  city : String
  createdAt : String
  deletedAt : Option String
deriving Repr, DecidableEq

/-- Row of the `recipients` table. -/
structure RecipientRow where
  id : Int
  name : String
  bloodTypeID : Int
  phone : String
  hospital : String
  createdAt : String
  deletedAt : Option String
deriving Repr, DecidableEq

/-- Row of the `donations` table. -/
structure DonationRow where
  id : Int
  donorID : Int
  units : Int
  donationDate : String
  expiryDate : String
  deletedAt : Option String
deriving Repr, DecidableEq

/-- Row of the `inventory` table (`blood_type_id` is UNIQUE). -/
structure InventoryRow where
  id : Int
  bloodTypeID : Int
  units : Int
  deletedAt : Option String
deriving Repr, DecidableEq

/-- Row of the `requests` table. -/
structure RequestRow where
  id : Int
  recipientID : Int
  units : Int
  status : String
  requestDate : String
  deletedAt : Option String
deriving Repr, DecidableEq

/-- The six tables of the SQLite database (rows in insertion order, which is
the scan order SQLite uses for the un-ordered queries of main.go), plus the
AUTOINCREMENT counter of each table. -/
structure Store where
  bloodTypes : List (Int × String)
  donors : List DonorRow
  recipients : List RecipientRow
  donations : List DonationRow
  inventory : List InventoryRow
  requests : List RequestRow
  nextBloodTypeID : Int
  nextDonorID : Int
  nextRecipientID : Int
  nextDonationID : Int
  nextInventoryID : Int
  nextRequestID : Int
deriving Repr, DecidableEq

/-- A fresh database right after `initDB` on a new file. -/
def emptyStore : Store :=
  ⟨[], [], [], [], [], [], 1, 1, 1, 1, 1, 1⟩

/-- Outcome of a POST handler: `http.Redirect` on success, or the flash
message passed to `renderWithMessage` on a rejection. -/
inductive HResult where
  | redirect
  | message (text : String)
deriving Repr, DecidableEq

/-- `SELECT id FROM blood_types WHERE type = ?` (the `type` column is
UNIQUE, so first match agrees with SQLite). -/
def lookupBloodType (s : Store) (key : String) : Option (Int × String) :=
  s.bloodTypes.find? (fun p => p.2 == key)

/-- `getOrCreateBloodTypeID` from main.go.  Returns `none` exactly when the
normalized label is empty (Go returns an error there); otherwise the ref of
the existing row, or a fresh ref after inserting the new label. -/
def getOrCreateBloodTypeID (s : Store) (bloodType : String) : Option (Int × Store) :=
  let bt := normalizeBloodType bloodType
  if bt = "" then none
  else
    match lookupBloodType s bt with
    | some p => some (p.1, s)
    | none =>
        some (s.nextBloodTypeID,
          { s with
            bloodTypes := s.bloodTypes ++ [(s.nextBloodTypeID, bt)],
            nextBloodTypeID := s.nextBloodTypeID + 1 })

/-- `getDonorBloodTypeID` from main.go: active donor's blood type, with the
`id == 0` guard of the Go code. -/
def getDonorBloodTypeID (s : Store) (donorID : Int) : Option Int :=
  match s.donors.find? (fun d => d.id == donorID && d.deletedAt == none) with
  | none => none
  | some d => if d.bloodTypeID = 0 then none else some d.bloodTypeID

/-- `getRecipientBloodTypeID` from main.go. -/
def getRecipientBloodTypeID (s : Store) (recipientID : Int) : Option Int :=
  match s.recipients.find? (fun r => r.id == recipientID && r.deletedAt == none) with
  | none => none
  | some r => if r.bloodTypeID = 0 then none else some r.bloodTypeID

/-- `getRequestBloodTypeID` from main.go: joins the active request with its
recipient and returns the recipient's blood type. -/
def getRequestBloodTypeID (s : Store) (requestID : Int) : Option Int :=
  match s.requests.find? (fun r => r.id == requestID && r.deletedAt == none) with
  | none => none
  | some r =>
      match s.recipients.find? (fun rc => rc.id == r.recipientID) with
      | none => none
      | some rc => if rc.bloodTypeID = 0 then none else some rc.bloodTypeID

/-- `SELECT units FROM inventory WHERE blood_type_id = ? AND deleted_at IS
NULL` — the read `consumeInventoryByTypeID` gates on. -/
def activeInvRow (s : Store) (bloodTypeID : Int) : Option InventoryRow :=
  s.inventory.find? (fun r => r.bloodTypeID == bloodTypeID && r.deletedAt == none)

/-- The balance visible to the ledger for a blood-type ref: the units of the
active inventory row, `0` when no active row exists. -/
def activeInvUnits (s : Store) (bloodTypeID : Int) : Int :=
  match activeInvRow s bloodTypeID with
  | some row => row.units
  | none => 0

/-- `upsertInventoryByTypeID` from main.go (ledger credit): `UPDATE inventory
SET units = units + ?, deleted_at = NULL WHERE blood_type_id = ?` and, when
no row was affected, `INSERT` a fresh row holding `units`.  Note the UPDATE
carries no `deleted_at` filter. -/
def upsertInventoryByTypeID (s : Store) (bloodTypeID units : Int) : Store :=
  if s.inventory.any (fun r => r.bloodTypeID == bloodTypeID) then
    { s with
      inventory := s.inventory.map (fun r =>
        if r.bloodTypeID = bloodTypeID then { r with units := r.units + units, deletedAt := none } else r) }
  else
    { s with
      inventory := s.inventory ++ [⟨s.nextInventoryID, bloodTypeID, units, none⟩],
      nextInventoryID := s.nextInventoryID + 1 }

/-- `consumeInventoryByTypeID` from main.go (ledger debit): read the active
balance; no row or a balance below `units` yields `false` without mutation;
otherwise `UPDATE inventory SET units = units - ? WHERE blood_type_id = ?`
and `true`. -/
def consumeInventoryByTypeID (s : Store) (bloodTypeID units : Int) : Bool × Store :=
  match activeInvRow s bloodTypeID with
  | none => (false, s)
  | some row =>
      if row.units < units then (false, s)
      else
        (true,
          { s with
            inventory := s.inventory.map (fun r =>
              if r.bloodTypeID = bloodTypeID then { r with units := r.units - units } else r) })

/-- POST `/donors` handler from `main` (form values already parsed). -/
def postDonors (s : Store) (nameRaw bloodTypeRaw phoneRaw cityRaw now : String) :
    HResult × Store :=
  let name := trimSpace nameRaw
  let bloodType := normalizeBloodType bloodTypeRaw
  let phone := trimSpace phoneRaw
  let city := trimSpace cityRaw
  if name = "" ∨ bloodType = "" then
    (.message ("Donor name and blood type are required."), s)
  else
    match getOrCreateBloodTypeID s bloodType with
    | none => (.message ("Could not add donor."), s)
    | some (bloodTypeID, s1) =>
        (.redirect,
          { s1 with
            donors := s1.donors ++ [⟨s1.nextDonorID, name, bloodTypeID, phone, city, now, none⟩],
            nextDonorID := s1.nextDonorID + 1 })

/-- POST `/recipients` handler from `main`. -/
def postRecipients (s : Store) (nameRaw bloodTypeRaw phoneRaw hospitalRaw now : String) :
    HResult × Store :=
  let name := trimSpace nameRaw
  let bloodType := normalizeBloodType bloodTypeRaw
  let phone := trimSpace phoneRaw
  let hospital := trimSpace hospitalRaw
  if name = "" ∨ bloodType = "" then
    (.message ("Recipient name and blood type are required."), s)
  else
    match getOrCreateBloodTypeID s bloodType with
    | none => (.message ("Could not add recipient."), s)
    | some (bloodTypeID, s1) =>
        (.redirect,
          { s1 with
            recipients := s1.recipients ++ [⟨s1.nextRecipientID, name, bloodTypeID, phone, hospital, now, none⟩],
            nextRecipientID := s1.nextRecipientID + 1 })

/-- POST `/donations` handler from `main` (record a donation, then credit
the ledger).  `strconv.Atoi` failures surface as `0`, which the guard
rejects, so the parsed `Int` arguments model the form faithfully. -/
def postDonations (s : Store) (donorID units : Int) (expiryRaw now : String) :
    HResult × Store :=
  let expiry := trimSpace expiryRaw
  if donorID = 0 ∨ units ≤ 0 ∨ expiry = "" then
    (.message ("Donation requires donor, units, and expiry date."), s)
  else
    match getDonorBloodTypeID s donorID with
    | none => (.message ("Donation requires a valid donor with blood type."), s)
    | some bloodTypeID =>
        let s1 :=
          { s with
            donations := s.donations ++ [⟨s.nextDonationID, donorID, units, now, expiry, none⟩],
            nextDonationID := s.nextDonationID + 1 }
        (.redirect, upsertInventoryByTypeID s1 bloodTypeID units)

/-- The lookup of POST `/donations/delete`: `SELECT donors.blood_type_id,
d.units FROM donations d JOIN donors ON donors.id = d.donor_id WHERE d.id =
? AND d.deleted_at IS NULL`. -/
def lookupDonationJoinDonor (s : Store) (id : Int) : Option (Int × Int) :=
  match s.donations.find? (fun d => d.id == id && d.deletedAt == none) with
  | none => none
  | some d =>
      match s.donors.find? (fun dr => dr.id == d.donorID) with
      | none => none
      | some dr => some (dr.bloodTypeID, d.units)

/-- POST `/donations/delete` handler from `main` (retire a donation: debit
first, soft-delete only on a successful debit). -/
def postDonationsDelete (s : Store) (id : Int) (now : String) : HResult × Store :=
  if id = 0 then (.redirect, s)
  else
    match lookupDonationJoinDonor s id with
    | none => (.message ("Donation not found."), s)
    | some (bloodTypeID, units) =>
        match consumeInventoryByTypeID s bloodTypeID units with
        | (false, s1) => (.message ("Cannot delete donation because inventory is already used."), s1)
        | (true, s1) =>
            (.redirect,
              { s1 with
                donations := s1.donations.map (fun d =>
                  if d.id = id then { d with deletedAt := some now } else d) })

/-- POST `/requests` handler from `main` (create a Pending request). -/
def postRequests (s : Store) (recipientID units : Int) (now : String) : HResult × Store :=
  if recipientID = 0 ∨ units ≤ 0 then
    (.message ("Request requires recipient and units."), s)
  else
    match getRecipientBloodTypeID s recipientID with
    | none => (.message ("Request requires a valid recipient with blood type."), s)
    | some _ =>
        (.redirect,
          { s with
            requests := s.requests ++ [⟨s.nextRequestID, recipientID, units, "Pending", now, none⟩],
            nextRequestID := s.nextRequestID + 1 })

/-- The lookup of POST `/fulfill`: `SELECT recipients.blood_type_id, r.units
FROM requests r JOIN recipients ON recipients.id = r.recipient_id WHERE
r.id = ?` — note there is no status filter and no `deleted_at` filter. -/
def lookupRequestJoinRecipient (s : Store) (id : Int) : Option (Int × Int) :=
  match s.requests.find? (fun r => r.id == id) with
  | none => none
  | some r =>
      match s.recipients.find? (fun rc => rc.id == r.recipientID) with
      | none => none
      | some rc => some (rc.bloodTypeID, r.units)

/-- POST `/fulfill` handler from `main` (debit the ledger, then set the
request's status to Fulfilled). -/
def postFulfill (s : Store) (id : Int) : HResult × Store :=
  if id = 0 then (.redirect, s)
  else
    match lookupRequestJoinRecipient s id with
    | none => (.message ("Request not found."), s)
    | some (bloodTypeID, units) =>
        match consumeInventoryByTypeID s bloodTypeID units with
        | (false, s1) => (.message ("Not enough inventory to fulfill request."), s1)
        | (true, s1) =>
            (.redirect,
              { s1 with
                requests := s1.requests.map (fun r =>
                  if r.id = id then { r with status := "Fulfilled" } else r) })

/-- `SELECT units, status FROM requests WHERE id = ? AND deleted_at IS NULL`
used by the request update and delete handlers. -/
def findActiveRequest (s : Store) (id : Int) : Option RequestRow :=
  s.requests.find? (fun r => r.id == id && r.deletedAt == none)

/-- POST `/requests/update` handler from `main` (amend a request). -/
def postRequestsUpdate (s : Store) (id units : Int) (statusRaw : String) : HResult × Store :=
  let status := trimSpace statusRaw
  if id = 0 ∨ units ≤ 0 ∨ status = "" then
    (.message ("Request update requires id, units, and status."), s)
  else
    match findActiveRequest s id with
    | none => (.message ("Request not found."), s)
    | some old =>
        if old.status = "Fulfilled" ∧ (status ≠ "Fulfilled" ∨ old.units ≠ units) then
          (.message ("Cannot modify a fulfilled request."), s)
        else if old.status ≠ "Fulfilled" ∧ status = "Fulfilled" then
          match getRequestBloodTypeID s id with
          | none => (.message ("Request is missing blood type."), s)
          | some bloodTypeID =>
              match consumeInventoryByTypeID s bloodTypeID units with
              | (false, s1) => (.message ("Not enough inventory to fulfill request."), s1)
              | (true, s1) =>
                  (.redirect,
                    { s1 with
                      requests := s1.requests.map (fun r =>
                        if r.id = id then { r with units := units, status := status } else r) })
        else
          (.redirect,
            { s with
              requests := s.requests.map (fun r =>
                if r.id = id then { r with units := units, status := status } else r) })

/-- POST `/requests/delete` handler from `main` (cancel a request: reject if
Fulfilled, else mark Cancelled and soft-delete). -/
def postRequestsDelete (s : Store) (id : Int) (now : String) : HResult × Store :=
  if id = 0 then (.redirect, s)
  else
    match findActiveRequest s id with
    | none => (.message ("Request not found."), s)
    | some old =>
        if old.status = "Fulfilled" then
          (.message ("Cannot delete a fulfilled request."), s)
        else
          (.redirect,
            { s with
              requests := s.requests.map (fun r =>
                if r.id = id then { r with status := "Cancelled", deletedAt := some now } else r) })

/-- One public mutating operation, with its parsed form values. -/
inductive Op where
  | addDonor (name bloodType phone city now : String)
  | addRecipient (name bloodType phone hospital now : String)
  | recordDonation (donorID units : Int) (expiry now : String)
  | retireDonation (id : Int) (now : String)
  | createRequest (recipientID units : Int) (now : String)
  | fulfillRequest (id : Int)
  | amendRequest (id units : Int) (status : String)
  | cancelRequest (id : Int) (now : String)
deriving Repr, DecidableEq

/-- Dispatch an operation to its handler. -/
def applyOpR (s : Store) (op : Op) : HResult × Store :=
  match op with
  | .addDonor name bloodType phone city now => postDonors s name bloodType phone city now
  | .addRecipient name bloodType phone hospital now => postRecipients s name bloodType phone hospital now
  | .recordDonation donorID units expiry now => postDonations s donorID units expiry now
  | .retireDonation id now => postDonationsDelete s id now
  | .createRequest recipientID units now => postRequests s recipientID units now
  | .fulfillRequest id => postFulfill s id
  | .amendRequest id units status => postRequestsUpdate s id units status
  | .cancelRequest id now => postRequestsDelete s id now

/-- The store an operation leaves behind. -/
def applyOp (s : Store) (op : Op) : Store :=
  (applyOpR s op).2

/-- Run a sequence of public operations. -/
def execOps (s : Store) (ops : List Op) : Store :=
  ops.foldl applyOp s

/-- Blood type a donation is attributed to when read back (the listing and
the retire handler both join `donations` with `donors`, without filtering
the donor's `deleted_at`). -/
def donorBloodTypeOf (s : Store) (donorID : Int) : Option Int :=
  (s.donors.find? (fun d => d.id == donorID)).map (fun d => d.bloodTypeID)

/-- Blood type a request is attributed to (join with `recipients`). -/
def recipientBloodTypeOf (s : Store) (recipientID : Int) : Option Int :=
  (s.recipients.find? (fun r => r.id == recipientID)).map (fun r => r.bloodTypeID)

/-- Sum of the unit counts of the active (non-soft-deleted) donations of a
blood type. -/
def activeDonationUnits (s : Store) (ref : Int) : Int :=
  ((s.donations.filter (fun d =>
    d.deletedAt == none && donorBloodTypeOf s d.donorID == some ref)).map (fun d => d.units)).sum

/-- Sum of the unit counts of the Fulfilled requests of a blood type. -/
def fulfilledRequestUnits (s : Store) (ref : Int) : Int :=
  ((s.requests.filter (fun r =>
    r.status == "Fulfilled" && recipientBloodTypeOf s r.recipientID == some ref)).map (fun r => r.units)).sum

example : normalizeBloodType ("  o+ ") = "O+" := by decide

example :
    (postDonors emptyStore ("Dana") ("o+") ("") ("") ("2025-01-01")).1 = .redirect := by decide

/-- A run of the public operations: register a donor and a recipient of
blood type O+, record a 2-unit donation, create a 1-unit request, and
fulfill it once.  Afterwards the request is Fulfilled and 1 unit is left. -/
def traceFulfilledOnce : List Op :=
  [.addDonor ("Dana") ("O+") ("") ("") ("2025-01-01"),
   .recordDonation 1 2 ("2025-12-01") ("2025-01-02"),
   .addRecipient ("Rita") ("O+") ("") ("") ("2025-01-03"),
   .createRequest 1 1 ("2025-01-04"),
   .fulfillRequest 1]

/-- The store reached by `traceFulfilledOnce`. -/
def storeFulfilledOnce : Store :=
  execOps emptyStore traceFulfilledOnce

/-- The store reached by `traceFulfilledOnce` followed by a second
`POST /fulfill` on the same (already Fulfilled) request. -/
def storeFulfilledTwice : Store :=
  execOps emptyStore (traceFulfilledOnce ++ [.fulfillRequest 1])

example : (findActiveRequest storeFulfilledOnce 1).map (fun r => r.status) = some ("Fulfilled") := by decide

/-! ## General lemmas about list queries and updates -/

theorem map_fixed_eq_self {α : Type} (f : α → α) :
    ∀ (l : List α), (∀ a ∈ l, f a = a) → l.map f = l
  | [], _ => rfl
  | a :: t, h => by
      rw [List.map_cons, h a (List.mem_cons_self a t),
        map_fixed_eq_self f t (fun b hb => h b (List.mem_cons_of_mem a hb))]

theorem find?_map_pres {α : Type} (g : α → α) (p : α → Bool) :
    ∀ (l : List α), (∀ a ∈ l, p (g a) = p a) → (l.map g).find? p = (l.find? p).map g
  | [], _ => rfl
  | a :: t, h => by
      by_cases hpa : p a = true
      · rw [List.map_cons,
          List.find?_cons_of_pos _ (by rw [h a (List.mem_cons_self a t)]; exact hpa),
          List.find?_cons_of_pos _ hpa]
        rfl
      · rw [List.map_cons,
          List.find?_cons_of_neg _ (by rw [h a (List.mem_cons_self a t)]; exact hpa),
          List.find?_cons_of_neg _ hpa]
        exact find?_map_pres g p t (fun b hb => h b (List.mem_cons_of_mem a hb))

theorem find?_map_skip {α : Type} (g : α → α) (p : α → Bool) (l : List α)
    (h : ∀ a ∈ l, p (g a) = p a) (hfix : ∀ a ∈ l, p a = true → g a = a) :
    (l.map g).find? p = l.find? p := by
  rw [find?_map_pres g p l h]
  cases hf : l.find? p with
  | none => rfl
  | some a =>
      show some (g a) = some a
      rw [hfix a (List.mem_of_find?_eq_some hf) (List.find?_some hf)]

theorem find?_append_some {α : Type} (p : α → Bool) (l₁ l₂ : List α) (a : α)
    (h : l₁.find? p = some a) : (l₁ ++ l₂).find? p = some a := by
  rw [List.find?_append, h]
  rfl

theorem find?_append_none {α : Type} (p : α → Bool) (l₁ l₂ : List α)
    (h : l₁.find? p = none) : (l₁ ++ l₂).find? p = l₂.find? p := by
  rw [List.find?_append, h]
  rfl

/-! ## Ledger helper lemmas -/

theorem consume_of_no_active_row (s : Store) (ref units : Int)
    (h : activeInvRow s ref = none) :
    consumeInventoryByTypeID s ref units = (false, s) := by
  simp [consumeInventoryByTypeID, h]

theorem consume_of_low_balance (s : Store) (ref units : Int) (row : InventoryRow)
    (h : activeInvRow s ref = some row) (hlt : row.units < units) :
    consumeInventoryByTypeID s ref units = (false, s) := by
  simp [consumeInventoryByTypeID, h, hlt]

theorem consume_of_insufficient (s : Store) (ref units : Int)
    (h : activeInvUnits s ref < units) :
    consumeInventoryByTypeID s ref units = (false, s) := by
  unfold activeInvUnits at h
  cases hr : activeInvRow s ref with
  | none => exact consume_of_no_active_row s ref units hr
  | some row =>
      rw [hr] at h
      exact consume_of_low_balance s ref units row hr h

theorem consume_fst_of_sufficient (s : Store) (ref units : Int) (row : InventoryRow)
    (h : activeInvRow s ref = some row) (hle : units ≤ row.units) :
    (consumeInventoryByTypeID s ref units).1 = true := by
  simp [consumeInventoryByTypeID, h, not_lt.mpr hle]

theorem consume_snd_of_false (s : Store) (ref units : Int) (s1 : Store)
    (h : consumeInventoryByTypeID s ref units = (false, s1)) : s1 = s := by
  cases hr : activeInvRow s ref with
  | none =>
      rw [consume_of_no_active_row s ref units hr] at h
      simp only [Prod.mk.injEq] at h
      exact h.2.symm
  | some row =>
      by_cases hlt : row.units < units
      · rw [consume_of_low_balance s ref units row hr hlt] at h
        simp only [Prod.mk.injEq] at h
        exact h.2.symm
      · have := consume_fst_of_sufficient s ref units row hr (not_lt.mp hlt)
        rw [h] at this
        simp at this

theorem subRow_pred (ref units ref2 : Int) (a : InventoryRow) :
    (((if a.bloodTypeID = ref then { a with units := a.units - units } else a).bloodTypeID == ref2) &&
      ((if a.bloodTypeID = ref then { a with units := a.units - units } else a).deletedAt == none)) =
    ((a.bloodTypeID == ref2) && (a.deletedAt == none)) := by
  by_cases hb : a.bloodTypeID = ref <;> simp [hb]

theorem consume_snd_inventory_of_sufficient (s : Store) (ref units : Int) (row : InventoryRow)
    (h : activeInvRow s ref = some row) (hle : units ≤ row.units) :
    (consumeInventoryByTypeID s ref units).2.inventory =
      s.inventory.map (fun r =>
        if r.bloodTypeID = ref then { r with units := r.units - units } else r) := by
  simp [consumeInventoryByTypeID, h, not_lt.mpr hle]

theorem consume_balance_of_sufficient (s : Store) (ref units : Int) (row : InventoryRow)
    (h : activeInvRow s ref = some row) (hle : units ≤ row.units) :
    activeInvUnits (consumeInventoryByTypeID s ref units).2 ref =
      activeInvUnits s ref - units := by
  have hrow := List.find?_some h
  rw [Bool.and_eq_true, beq_iff_eq] at hrow
  unfold activeInvUnits activeInvRow
  rw [consume_snd_inventory_of_sufficient s ref units row h hle,
    find?_map_pres _ _ _ (fun a _ => subRow_pred ref units ref a)]
  rw [show s.inventory.find? (fun r => r.bloodTypeID == ref && r.deletedAt == none) = some row from h]
  show (if row.bloodTypeID = ref then { row with units := row.units - units } else row).units =
    row.units - units
  rw [if_pos hrow.1]

theorem consume_other_of_sufficient (s : Store) (ref units : Int) (row : InventoryRow)
    (h : activeInvRow s ref = some row) (hle : units ≤ row.units)
    (ref2 : Int) (hne : ref2 ≠ ref) :
    activeInvUnits (consumeInventoryByTypeID s ref units).2 ref2 =
      activeInvUnits s ref2 := by
  unfold activeInvUnits activeInvRow
  rw [consume_snd_inventory_of_sufficient s ref units row h hle,
    find?_map_skip _ _ _ (fun a _ => subRow_pred ref units ref2 a)
      (fun a _ hp => by
        rw [Bool.and_eq_true, beq_iff_eq] at hp
        rw [if_neg (hp.1 ▸ hne)])]

/-! ## Claim theorems -/

/-- Claim C1: the spec's inventory invariant (balance = active donation
units − Fulfilled request units for every blood-type ref, never negative)
is violated by a reachable state: the `/fulfill` handler looks requests up
without any status filter, so fulfilling the same request twice debits the
ledger twice while the request is counted once.  After a 2-unit O+ donation,
a 1-unit O+ request, and two `/fulfill` posts on that request, the O+
balance is 0 although active donations minus Fulfilled requests is 1. -/
theorem c1_inventory_invariant_fails :
    storeFulfilledTwice = execOps emptyStore (traceFulfilledOnce ++ [Op.fulfillRequest 1]) ∧
    activeInvUnits storeFulfilledTwice 1 = 0 ∧
    activeDonationUnits storeFulfilledTwice 1 = 2 ∧
    fulfilledRequestUnits storeFulfilledTwice 1 = 1 := by
  refine ⟨rfl, ?_, ?_, ?_⟩ <;> decide

/-- Claim C3: the claimed request state machine (fulfilling only possible
from Pending, never twice) is violated: in the reachable store
`storeFulfilledOnce`, request 1 already has status Fulfilled, yet a second
`POST /fulfill` succeeds (redirect), debits the remaining unit, and performs
a Fulfilled → Fulfilled transition, because the handler's lookup carries no
status or deleted_at filter. -/
theorem c3_fulfill_ignores_status :
    (findActiveRequest storeFulfilledOnce 1).map RequestRow.status = some ("Fulfilled") ∧
    (postFulfill storeFulfilledOnce 1).1 = HResult.redirect ∧
    activeInvUnits storeFulfilledOnce 1 = 1 ∧
    activeInvUnits (postFulfill storeFulfilledOnce 1).2 1 = 0 := by
  refine ⟨?_, ?_, ?_, ?_⟩ <;> decide

/-- Claim C2: the debit operation returns false and leaves every balance
unchanged when no active row exists for the ref or the current balance is
below `units`; otherwise it returns true, lowers the ref's balance by
exactly `units`, and leaves every other balance untouched. -/
theorem c2_debit_spec :
    (∀ (s : Store) (ref units : Int), activeInvRow s ref = none →
        consumeInventoryByTypeID s ref units = (false, s)) ∧
    (∀ (s : Store) (ref units : Int) (row : InventoryRow),
        activeInvRow s ref = some row → row.units < units →
        consumeInventoryByTypeID s ref units = (false, s)) ∧
    (∀ (s : Store) (ref units : Int) (row : InventoryRow),
        activeInvRow s ref = some row → units ≤ row.units →
        (consumeInventoryByTypeID s ref units).1 = true ∧
        activeInvUnits (consumeInventoryByTypeID s ref units).2 ref =
          activeInvUnits s ref - units ∧
        (∀ ref2, ref2 ≠ ref →
          activeInvUnits (consumeInventoryByTypeID s ref units).2 ref2 =
            activeInvUnits s ref2)) := by
  refine ⟨consume_of_no_active_row, consume_of_low_balance, ?_⟩
  intro s ref units row h hle
  exact ⟨consume_fst_of_sufficient s ref units row h hle,
    consume_balance_of_sufficient s ref units row h hle,
    fun ref2 hne => consume_other_of_sufficient s ref units row h hle ref2 hne⟩

/-! ## Handler rejection lemmas: every flash message leaves the store as it was -/

theorem postDonors_message (s : Store) (a b c d now m : String) :
    (postDonors s a b c d now).1 = HResult.message m → (postDonors s a b c d now).2 = s := by
  simp only [postDonors]
  split
  · intro _; rfl
  · split
    · intro _; rfl
    · exact fun h => HResult.noConfusion h

theorem postRecipients_message (s : Store) (a b c d now m : String) :
    (postRecipients s a b c d now).1 = HResult.message m →
      (postRecipients s a b c d now).2 = s := by
  simp only [postRecipients]
  split
  · intro _; rfl
  · split
    · intro _; rfl
    · exact fun h => HResult.noConfusion h

theorem postDonations_message (s : Store) (donorID units : Int) (expiry now m : String) :
    (postDonations s donorID units expiry now).1 = HResult.message m →
      (postDonations s donorID units expiry now).2 = s := by
  simp only [postDonations]
  split
  · intro _; rfl
  · split
    · intro _; rfl
    · exact fun h => HResult.noConfusion h

theorem postDonationsDelete_message (s : Store) (id : Int) (now m : String) :
    (postDonationsDelete s id now).1 = HResult.message m →
      (postDonationsDelete s id now).2 = s := by
  simp only [postDonationsDelete]
  split
  · exact fun h => HResult.noConfusion h
  · split
    · intro _; rfl
    · split
      · next s1 heq => intro _; exact consume_snd_of_false _ _ _ _ heq
      · exact fun h => HResult.noConfusion h

theorem postRequests_message (s : Store) (recipientID units : Int) (now m : String) :
    (postRequests s recipientID units now).1 = HResult.message m →
      (postRequests s recipientID units now).2 = s := by
  simp only [postRequests]
  split
  · intro _; rfl
  · split
    · intro _; rfl
    · exact fun h => HResult.noConfusion h

theorem postFulfill_message (s : Store) (id : Int) (m : String) :
    (postFulfill s id).1 = HResult.message m → (postFulfill s id).2 = s := by
  simp only [postFulfill]
  split
  · exact fun h => HResult.noConfusion h
  · split
    · intro _; rfl
    · split
      · next s1 heq => intro _; exact consume_snd_of_false _ _ _ _ heq
      · exact fun h => HResult.noConfusion h

theorem postRequestsUpdate_message (s : Store) (id units : Int) (statusRaw m : String) :
    (postRequestsUpdate s id units statusRaw).1 = HResult.message m →
      (postRequestsUpdate s id units statusRaw).2 = s := by
  simp only [postRequestsUpdate]
  split
  · intro _; rfl
  · split
    · intro _; rfl
    · split
      · intro _; rfl
      · split
        · split
          · intro _; rfl
          · split
            · next s1 heq => intro _; exact consume_snd_of_false _ _ _ _ heq
            · exact fun h => HResult.noConfusion h
        · exact fun h => HResult.noConfusion h

theorem postRequestsDelete_message (s : Store) (id : Int) (now m : String) :
    (postRequestsDelete s id now).1 = HResult.message m →
      (postRequestsDelete s id now).2 = s := by
  simp only [postRequestsDelete]
  split
  · exact fun h => HResult.noConfusion h
  · split
    · intro _; rfl
    · split
      · intro _; rfl
      · exact fun h => HResult.noConfusion h

/-- Claim C4: every rejection (rendered flash message) leaves the whole
store unchanged, and in particular fulfilling a request whose units exceed
the current balance of its blood type is rejected with the
insufficient-inventory message and mutates nothing. -/
theorem c4_rejections_leave_state_unchanged :
    (∀ (s : Store) (op : Op) (m : String),
        (applyOpR s op).1 = HResult.message m → (applyOpR s op).2 = s) ∧
    (∀ (s : Store) (id bloodTypeID units : Int),
        id ≠ 0 →
        lookupRequestJoinRecipient s id = some (bloodTypeID, units) →
        activeInvUnits s bloodTypeID < units →
        postFulfill s id = (HResult.message ("Not enough inventory to fulfill request."), s)) := by
  constructor
  · intro s op m
    cases op with
    | addDonor a b c d now => exact postDonors_message s a b c d now m
    | addRecipient a b c d now => exact postRecipients_message s a b c d now m
    | recordDonation donorID units expiry now => exact postDonations_message s donorID units expiry now m
    | retireDonation id now => exact postDonationsDelete_message s id now m
    | createRequest recipientID units now => exact postRequests_message s recipientID units now m
    | fulfillRequest id => exact postFulfill_message s id m
    | amendRequest id units status => exact postRequestsUpdate_message s id units status m
    | cancelRequest id now => exact postRequestsDelete_message s id now m
  · intro s id bloodTypeID units hid hlook hlow
    simp only [postFulfill, if_neg hid, hlook, consume_of_insufficient s bloodTypeID units hlow]

/-- Witness for C4: creating a request with recipient id 0 is rejected with
its invalid-argument message and leaves the empty store untouched, and a
fulfill attempt in `storeFulfilledOnce` (balance 1) on a fresh 2-unit
request would be rejected; here instantiated on the first part with a
concrete rejected operation. -/
theorem c4_witness :
    (applyOpR emptyStore (Op.createRequest 0 2 ("2025-01-05"))).2 = emptyStore :=
  c4_rejections_leave_state_unchanged.1 emptyStore (Op.createRequest 0 2 ("2025-01-05"))
    ("Request requires recipient and units.") (by decide)

/-- Store with a single inventory row for ref 5 that is soft-deleted. -/
def storeSoftDeletedInv : Store :=
  { emptyStore with inventory := [⟨1, 5, 10, some ("2025-01-01")⟩] }

/-- Witness for C2 at concrete inputs: debiting 9 from a balance of 5 fails
without mutation; debiting 3 succeeds and leaves 2. -/
theorem c2_debit_spec_witness :
    consumeInventoryByTypeID { emptyStore with inventory := [⟨1, 7, 5, none⟩] } 7 9 =
      (false, { emptyStore with inventory := [⟨1, 7, 5, none⟩] }) ∧
    activeInvUnits (consumeInventoryByTypeID { emptyStore with inventory := [⟨1, 7, 5, none⟩] } 7 3).2 7 = 2 := by
  constructor
  · exact c2_debit_spec.2.1 _ 7 9 ⟨1, 7, 5, none⟩ (by decide) (by decide)
  · have h := (c2_debit_spec.2.2 { emptyStore with inventory := [⟨1, 7, 5, none⟩] } 7 3
      ⟨1, 7, 5, none⟩ (by decide) (by decide)).2.1
    rw [h]
    decide

/-- Claim C10: a soft-deleted inventory row is invisible to the debit
operation: with no active row for the ref, the debit returns false and
changes nothing, whatever the stored units of the soft-deleted row. -/
theorem c10_soft_deleted_inventory_like_missing :
    ∀ (s : Store) (ref units : Int) (row : InventoryRow),
      row ∈ s.inventory → row.bloodTypeID = ref → row.deletedAt ≠ none →
      activeInvRow s ref = none →
      consumeInventoryByTypeID s ref units = (false, s) := by
  intro s ref units row _ _ _ h
  exact consume_of_no_active_row s ref units h

/-- Witness for C10: the soft-deleted row for ref 5 stores 10 units, yet a
debit of 3 (≤ 10) fails and mutates nothing. -/
theorem c10_witness :
    (3 : Int) ≤ 10 ∧
    consumeInventoryByTypeID storeSoftDeletedInv 5 3 = (false, storeSoftDeletedInv) :=
  ⟨by decide,
    c10_soft_deleted_inventory_like_missing storeSoftDeletedInv 5 3
      ⟨1, 5, 10, some ("2025-01-01")⟩ (by decide) (by decide) (by decide) (by decide)⟩

theorem consume_eq_false_pair (s : Store) (ref units : Int)
    (hf : (consumeInventoryByTypeID s ref units).1 = false) :
    consumeInventoryByTypeID s ref units = (false, s) := by
  cases hr : activeInvRow s ref with
  | none => exact consume_of_no_active_row s ref units hr
  | some row =>
      by_cases hlt : row.units < units
      · exact consume_of_low_balance s ref units row hr hlt
      · rw [consume_fst_of_sufficient s ref units row hr (not_lt.mp hlt)] at hf
        simp at hf

theorem consume_fst_true_elim (s : Store) (ref units : Int)
    (ht : (consumeInventoryByTypeID s ref units).1 = true) :
    ∃ row, activeInvRow s ref = some row ∧ units ≤ row.units := by
  cases hr : activeInvRow s ref with
  | none =>
      rw [consume_of_no_active_row s ref units hr] at ht
      simp at ht
  | some row =>
      by_cases hlt : row.units < units
      · rw [consume_of_low_balance s ref units row hr hlt] at ht
        simp at ht
      · exact ⟨row, rfl, not_lt.mp hlt⟩

theorem mem_map_mark_deleted (l : List DonationRow) (id : Int) (now : String) :
    ∀ d ∈ l.map (fun d =>
        if d.id = id then { d with deletedAt := some now } else d),
      d.id = id → d.deletedAt = some now := by
  intro d hd hdid
  rcases List.mem_map.mp hd with ⟨d0, _, rfl⟩
  by_cases h0 : d0.id = id
  · simp [h0]
  · simp only [if_neg h0] at hdid
    exact absurd hdid h0

/-- Claim C6: retiring a donation debits the ledger first; a failed debit is
rejected with the conflict message and mutates nothing (so the donation
stays active), and the donation is soft-deleted exactly when the debit
succeeds, with the balance of its blood type lowered by its units. -/
theorem c6_retire_donation_spec :
    ∀ (s : Store) (id : Int) (now : String) (bloodTypeID units : Int),
      id ≠ 0 →
      lookupDonationJoinDonor s id = some (bloodTypeID, units) →
      (((consumeInventoryByTypeID s bloodTypeID units).1 = false →
          postDonationsDelete s id now =
            (HResult.message ("Cannot delete donation because inventory is already used."), s)) ∧
       ((consumeInventoryByTypeID s bloodTypeID units).1 = true →
          (postDonationsDelete s id now).1 = HResult.redirect ∧
          (∀ d ∈ (postDonationsDelete s id now).2.donations,
            d.id = id → d.deletedAt = some now) ∧
          activeInvUnits (postDonationsDelete s id now).2 bloodTypeID =
            activeInvUnits s bloodTypeID - units)) := by
  intro s id now bloodTypeID units hid hlook
  constructor
  · intro hf
    simp only [postDonationsDelete, if_neg hid, hlook,
      consume_eq_false_pair s bloodTypeID units hf]
  · intro ht
    obtain ⟨row, hr, hle⟩ := consume_fst_true_elim s bloodTypeID units ht
    have hconsume : consumeInventoryByTypeID s bloodTypeID units =
        (true,
          { s with
            inventory := s.inventory.map (fun r =>
              if r.bloodTypeID = bloodTypeID then { r with units := r.units - units } else r) }) := by
      simp [consumeInventoryByTypeID, hr, not_lt.mpr hle]
    simp only [postDonationsDelete, if_neg hid, hlook, hconsume]
    refine ⟨trivial, ?_, ?_⟩
    · exact mem_map_mark_deleted _ id now
    · have hbal := consume_balance_of_sufficient s bloodTypeID units row hr hle
      simp only [hconsume] at hbal
      exact hbal

/-- Witness store for C6: one donor of blood type 3, one active 2-unit
donation, and an O-balance of 1 for ref 3 (one unit already consumed). -/
def storeRetireConflict : Store :=
  { emptyStore with
    donors := [⟨1, "Dana", 3, "", "", "2025-01-01", none⟩],
    donations := [⟨1, 1, 2, "2025-01-02", "2025-12-01", none⟩],
    inventory := [⟨1, 3, 1, none⟩],
    nextDonorID := 2, nextDonationID := 2, nextInventoryID := 2 }

/-- Witness for C6: retiring the 2-unit donation with only 1 unit left is
rejected with the conflict message and the store is untouched. -/
theorem c6_witness :
    postDonationsDelete storeRetireConflict 1 ("2025-02-01") =
      (HResult.message ("Cannot delete donation because inventory is already used."),
        storeRetireConflict) :=
  (c6_retire_donation_spec storeRetireConflict 1 ("2025-02-01") 3 2
    (by decide) (by decide)).1 (by decide)

theorem requestRow_update_self (old : RequestRow) (units : Int) (status : String)
    (hu : old.units = units) (hs : old.status = status) :
    ({ old with units := units, status := status } : RequestRow) = old := by
  rw [← hu, ← hs]

/-- Claim C7: a well-formed amendment of an active request whose current
status is Fulfilled succeeds only when it is a no-op (same units, same
status); every amendment changing units or status is rejected with the
immutable-fulfilled message and the store is unchanged. -/
theorem c7_fulfilled_request_immutable :
    ∀ (s : Store) (id units : Int) (statusRaw : String) (old : RequestRow),
      id ≠ 0 → 0 < units → trimSpace statusRaw ≠ "" →
      findActiveRequest s id = some old →
      old.status = "Fulfilled" →
      ((trimSpace statusRaw ≠ "Fulfilled" ∨ old.units ≠ units →
          postRequestsUpdate s id units statusRaw =
            (HResult.message ("Cannot modify a fulfilled request."), s)) ∧
       (trimSpace statusRaw = "Fulfilled" → old.units = units →
          (∀ r2 ∈ s.requests, r2.id = id → r2 = old) →
          postRequestsUpdate s id units statusRaw = (HResult.redirect, s))) := by
  intro s id units statusRaw old hid hu hs hfind hful
  have hguard : ¬(id = 0 ∨ units ≤ 0 ∨ trimSpace statusRaw = "") := by
    intro h
    exact h.elim hid (fun h2 => h2.elim (fun hle => absurd hle (not_le.mpr hu)) hs)
  constructor
  · intro hchange
    simp only [postRequestsUpdate, if_neg hguard, hfind, if_pos (And.intro hful hchange)]
  · intro hF hU hunique
    have hg1 : ¬(old.status = "Fulfilled" ∧
        (trimSpace statusRaw ≠ "Fulfilled" ∨ old.units ≠ units)) := by
      intro h
      exact h.2.elim (fun hne => hne hF) (fun hne => hne hU)
    have hg2 : ¬(old.status ≠ "Fulfilled" ∧ trimSpace statusRaw = "Fulfilled") := by
      intro h
      exact h.1 hful
    simp only [postRequestsUpdate, if_neg hguard, hfind, if_neg hg1, if_neg hg2]
    have hmap : s.requests.map (fun r =>
        if r.id = id then { r with units := units, status := trimSpace statusRaw } else r) =
        s.requests := by
      apply map_fixed_eq_self
      intro r hr
      by_cases hrid : r.id = id
      · rw [if_pos hrid, hunique r hr hrid]
        exact requestRow_update_self old units (trimSpace statusRaw) hU (hF ▸ hful)
      · rw [if_neg hrid]
    rw [hmap]

/-- Witness store for C7: a single Fulfilled 2-unit request of recipient 1. -/
def storeFulfilledReq : Store :=
  { emptyStore with
    recipients := [⟨1, "Rita", 3, "", "", "2025-01-01", none⟩],
    requests := [⟨1, 1, 2, "Fulfilled", "2025-01-02", none⟩],
    nextRecipientID := 2, nextRequestID := 2 }

/-- Witness for C7: changing the Fulfilled request's units from 2 to 5 is
rejected and the store is unchanged; the no-op amendment (2, Fulfilled)
succeeds and also leaves the store unchanged. -/
theorem c7_witness :
    postRequestsUpdate storeFulfilledReq 1 5 ("Fulfilled") =
      (HResult.message ("Cannot modify a fulfilled request."), storeFulfilledReq) ∧
    postRequestsUpdate storeFulfilledReq 1 2 ("Fulfilled") =
      (HResult.redirect, storeFulfilledReq) := by
  constructor
  · exact (c7_fulfilled_request_immutable storeFulfilledReq 1 5 ("Fulfilled")
      ⟨1, 1, 2, "Fulfilled", "2025-01-02", none⟩
      (by decide) (by decide) (by decide) (by decide) (by decide)).1 (by decide)
  · exact (c7_fulfilled_request_immutable storeFulfilledReq 1 2 ("Fulfilled")
      ⟨1, 1, 2, "Fulfilled", "2025-01-02", none⟩
      (by decide) (by decide) (by decide) (by decide) (by decide)).2
      (by decide) (by decide) (by decide)

theorem addRow_pred (ref units ref2 : Int) (a : InventoryRow) (hact : a.bloodTypeID = ref → a.deletedAt = none) :
    (((if a.bloodTypeID = ref then { a with units := a.units + units, deletedAt := none } else a).bloodTypeID == ref2) &&
      ((if a.bloodTypeID = ref then { a with units := a.units + units, deletedAt := none } else a).deletedAt == none)) =
    ((a.bloodTypeID == ref2) && (a.deletedAt == none)) := by
  by_cases hb : a.bloodTypeID = ref
  · simp [hb, hact hb]
  · simp [hb]

theorem upsert_balance_of_active (s : Store) (ref units : Int)
    (hact : ∀ r ∈ s.inventory, r.bloodTypeID = ref → r.deletedAt = none) :
    activeInvUnits (upsertInventoryByTypeID s ref units) ref =
      activeInvUnits s ref + units := by
  by_cases hany : s.inventory.any (fun r => r.bloodTypeID == ref) = true
  · simp only [upsertInventoryByTypeID, if_pos hany]
    unfold activeInvUnits activeInvRow
    rw [find?_map_pres _ _ _ (fun a ha => addRow_pred ref units ref a (hact a ha))]
    cases hf : s.inventory.find? (fun r => r.bloodTypeID == ref && r.deletedAt == none) with
    | some row =>
        have hrow := List.find?_some hf
        rw [Bool.and_eq_true, beq_iff_eq] at hrow
        show (if row.bloodTypeID = ref then { row with units := row.units + units, deletedAt := none } else row).units =
          row.units + units
        rw [if_pos hrow.1]
    | none =>
        obtain ⟨a, ha, hpa⟩ := List.any_eq_true.mp hany
        rw [beq_iff_eq] at hpa
        have : ¬(a.bloodTypeID == ref && a.deletedAt == none) = true :=
          List.find?_eq_none.mp hf a ha
        rw [Bool.and_eq_true, beq_iff_eq] at this
        exact absurd ⟨hpa, by rw [hact a ha hpa]; rfl⟩ this
  · simp only [upsertInventoryByTypeID, if_neg hany]
    have hnone : s.inventory.find? (fun r => r.bloodTypeID == ref && r.deletedAt == none) = none := by
      rw [List.find?_eq_none]
      intro a ha hp
      rw [Bool.and_eq_true] at hp
      exact hany (List.any_eq_true.mpr ⟨a, ha, hp.1⟩)
    unfold activeInvUnits activeInvRow
    rw [find?_append_none _ _ _ hnone, hnone, List.find?_cons_of_pos _ (by simp)]
    simp

theorem upsert_creates_row (s : Store) (ref units : Int)
    (hno : ∀ r ∈ s.inventory, r.bloodTypeID ≠ ref) :
    activeInvRow (upsertInventoryByTypeID s ref units) ref =
      some ⟨s.nextInventoryID, ref, units, none⟩ := by
  have hany : ¬ s.inventory.any (fun r => r.bloodTypeID == ref) = true := by
    intro h
    obtain ⟨a, ha, hpa⟩ := List.any_eq_true.mp h
    exact hno a ha (by rwa [beq_iff_eq] at hpa)
  have hnone : s.inventory.find? (fun r => r.bloodTypeID == ref && r.deletedAt == none) = none := by
    rw [List.find?_eq_none]
    intro a ha hp
    rw [Bool.and_eq_true, beq_iff_eq] at hp
    exact hno a ha hp.1
  simp only [upsertInventoryByTypeID, if_neg hany]
  unfold activeInvRow
  rw [find?_append_none _ _ _ hnone, List.find?_cons_of_pos _ (by simp)]

/-- Claim C8: the credit path rejects non-positive units before any
mutation (the `/donations` handler guard), and for positive units
`upsertInventoryByTypeID` always succeeds: it raises the ref's balance by
exactly `units`, creating the row initialized to `units` when the ref has
no inventory row yet. -/
theorem c8_credit_spec :
    (∀ (s : Store) (donorID units : Int) (expiry now : String), units ≤ 0 →
        postDonations s donorID units expiry now =
          (HResult.message ("Donation requires donor, units, and expiry date."), s)) ∧
    (∀ (s : Store) (ref units : Int), 0 < units →
        (∀ r ∈ s.inventory, r.bloodTypeID = ref → r.deletedAt = none) →
        activeInvUnits (upsertInventoryByTypeID s ref units) ref =
          activeInvUnits s ref + units) ∧
    (∀ (s : Store) (ref units : Int),
        (∀ r ∈ s.inventory, r.bloodTypeID ≠ ref) →
        activeInvRow (upsertInventoryByTypeID s ref units) ref =
          some ⟨s.nextInventoryID, ref, units, none⟩) := by
  refine ⟨?_, ?_, upsert_creates_row⟩
  · intro s donorID units expiry now hle
    simp only [postDonations, if_pos (Or.inr (Or.inl hle))]
  · intro s ref units _ hact
    exact upsert_balance_of_active s ref units hact

/-- Witness for C8: a zero-unit donation is rejected and the store is
unchanged; crediting 3 units to a ref with balance 5 yields 8; crediting a
fresh ref creates its row holding the credited units. -/
theorem c8_witness :
    postDonations emptyStore 1 0 ("2025-12-01") ("2025-01-02") =
      (HResult.message ("Donation requires donor, units, and expiry date."), emptyStore) ∧
    activeInvUnits
      (upsertInventoryByTypeID { emptyStore with inventory := [⟨1, 7, 5, none⟩] } 7 3) 7 = 5 + 3 ∧
    activeInvRow (upsertInventoryByTypeID emptyStore 4 6) 4 = some ⟨1, 4, 6, none⟩ := by
  refine ⟨c8_credit_spec.1 emptyStore 1 0 ("2025-12-01") ("2025-01-02") (by decide), ?_, ?_⟩
  · have h := c8_credit_spec.2.1 { emptyStore with inventory := [⟨1, 7, 5, none⟩] } 7 3
      (by decide) (by decide)
    rw [h]
    decide
  · exact c8_credit_spec.2.2 emptyStore 4 6 (by decide)

/-- A sequence of label resolutions through `getOrCreateBloodTypeID` (the
only writer of the `blood_types` table outside the migration): each label is
resolved in turn; a failed resolution (empty label) leaves the store as is. -/
def runLabels (s : Store) (labels : List String) : Store :=
  labels.foldl (fun st lbl =>
    match getOrCreateBloodTypeID st lbl with
    | some (_, st1) => st1
    | none => st) s

theorem getOrCreate_some_nonempty (s s1 : Store) (l : String) (r : Int)
    (h : getOrCreateBloodTypeID s l = some (r, s1)) :
    normalizeBloodType l ≠ "" := by
  intro he
  simp [getOrCreateBloodTypeID, he] at h

theorem lookup_after_getOrCreate (s s1 : Store) (l : String) (r : Int)
    (h : getOrCreateBloodTypeID s l = some (r, s1)) :
    lookupBloodType s1 (normalizeBloodType l) = some (r, normalizeBloodType l) := by
  have he := getOrCreate_some_nonempty s s1 l r h
  simp only [getOrCreateBloodTypeID, if_neg he] at h
  cases hl : lookupBloodType s (normalizeBloodType l) with
  | some p =>
      simp only [hl, Option.some.injEq, Prod.mk.injEq] at h
      have hp := List.find?_some hl
      rw [beq_iff_eq] at hp
      rw [← h.2, hl, ← h.1, ← hp]
  | none =>
      simp only [hl, Option.some.injEq, Prod.mk.injEq] at h
      rw [← h.2]
      unfold lookupBloodType
      rw [find?_append_none _ _ _ hl, List.find?_cons_of_pos _ (by simp)]
      rw [← h.1]

theorem lookup_stable_getOrCreate (s : Store) (key : String) (p : Int × String)
    (h : lookupBloodType s key = some p) (l : String) :
    lookupBloodType
      (match getOrCreateBloodTypeID s l with
        | some (_, st1) => st1
        | none => s) key = some p := by
  cases hg : getOrCreateBloodTypeID s l with
  | none => exact h
  | some pr =>
      obtain ⟨r, s1⟩ := pr
      have he := getOrCreate_some_nonempty s s1 l r hg
      simp only [getOrCreateBloodTypeID, if_neg he] at hg
      cases hl : lookupBloodType s (normalizeBloodType l) with
      | some q =>
          simp only [hl, Option.some.injEq, Prod.mk.injEq] at hg
          rw [← hg.2]
          exact h
      | none =>
          simp only [hl, Option.some.injEq, Prod.mk.injEq] at hg
          rw [← hg.2]
          exact find?_append_some _ _ _ _ h

theorem lookup_stable_runLabels :
    ∀ (labels : List String) (s : Store) (key : String) (p : Int × String),
      lookupBloodType s key = some p →
      lookupBloodType (runLabels s labels) key = some p
  | [], _, _, _, h => h
  | l :: t, s, key, p, h => by
      show lookupBloodType (runLabels
        (match getOrCreateBloodTypeID s l with
          | some (_, st1) => st1
          | none => s) t) key = some p
      exact lookup_stable_runLabels t _ key p (lookup_stable_getOrCreate s key p h l)

/-- Claim C9: `getOrCreateBloodTypeID` depends only on the normalized
(trimmed, uppercased) label, and once a normalized label has been assigned
a ref, every later resolution of any label with the same normalization —
with arbitrary other resolutions in between — returns that very ref and
leaves the registry untouched. -/
theorem c9_resolve_or_create_stable :
    (∀ (s : Store) (l1 l2 : String),
        normalizeBloodType l1 = normalizeBloodType l2 →
        getOrCreateBloodTypeID s l1 = getOrCreateBloodTypeID s l2) ∧
    (∀ (s s1 : Store) (l : String) (r : Int) (mid : List String) (l2 : String),
        getOrCreateBloodTypeID s l = some (r, s1) →
        normalizeBloodType l2 = normalizeBloodType l →
        getOrCreateBloodTypeID (runLabels s1 mid) l2 =
          some (r, runLabels s1 mid)) := by
  constructor
  · intro s l1 l2 h
    simp only [getOrCreateBloodTypeID, h]
  · intro s s1 l r mid l2 hg hnorm
    have he := getOrCreate_some_nonempty s s1 l r hg
    have hlook : lookupBloodType (runLabels s1 mid) (normalizeBloodType l) =
        some (r, normalizeBloodType l) :=
      lookup_stable_runLabels mid s1 (normalizeBloodType l) (r, normalizeBloodType l)
        (lookup_after_getOrCreate s s1 l r hg)
    simp only [getOrCreateBloodTypeID, hnorm, if_neg he, hlook]

/-- The registry after resolving the label O+ on an empty store. -/
def storeWithOPos : Store :=
  { emptyStore with bloodTypes := [(1, "O+")], nextBloodTypeID := 2 }

/-- Witness for C9: resolving labels that normalize alike gives equal
results, and after " o+ " created ref 1, resolving "o+" again — after two
unrelated resolutions in between — still returns ref 1. -/
theorem c9_witness :
    getOrCreateBloodTypeID emptyStore ("  o+ ") = getOrCreateBloodTypeID emptyStore ("O+") ∧
    getOrCreateBloodTypeID (runLabels storeWithOPos [("A-"), ("b+")]) ("o+") =
      some (1, runLabels storeWithOPos [("A-"), ("b+")]) := by
  constructor
  · exact c9_resolve_or_create_stable.1 emptyStore ("  o+ ") ("O+") (by decide)
  · exact c9_resolve_or_create_stable.2 emptyStore storeWithOPos ("O+") 1
      [("A-"), ("b+")] ("o+") (by decide) (by decide)

/-! ## Migration to 3NF (`migrateTo3NF` in main.go)

The legacy schema (the pre-3NF revision of the program) stores a
`blood_type TEXT` column on donors, recipients, donations, requests and
inventory; the migration collects the distinct normalized labels into the
`blood_types` lookup table, rebuilds each entity table with a
`blood_type_id` reference (dropping the text column everywhere, resolving
unknown labels to the UNKNOWN sentinel), and swaps the rebuilt tables in.
`tableHasColumn(db, "donors", "blood_type")` probes which schema shape the
database currently has, so a database is modelled as either shape. -/

/-- Row of the legacy `donors` table (`blood_type TEXT NOT NULL`). -/
structure LegacyDonorRow where
  id : Int
  name : String
  bloodType : String
  phone : String
  city : String
  createdAt : String
  deletedAt : Option String
deriving Repr, DecidableEq

/-- Row of the legacy `recipients` table. -/
structure LegacyRecipientRow where
  id : Int
  name : String
  bloodType : String
  phone : String
  hospital : String
  createdAt : String
  deletedAt : Option String
deriving Repr, DecidableEq

/-- Row of the legacy `donations` table (its `blood_type` column is dropped
by the migration, which copies only the other columns). -/
structure LegacyDonationRow where
  id : Int
  donorID : Int
  bloodType : String
  units : Int
  donationDate : String
  expiryDate : String
  deletedAt : Option String
deriving Repr, DecidableEq

/-- Row of the legacy `requests` table (`blood_type` dropped likewise). -/
structure LegacyRequestRow where
  id : Int
  recipientID : Int
  bloodType : String
  units : Int
  status : String
  requestDate : String
  deletedAt : Option String
deriving Repr, DecidableEq

/-- Row of the legacy `inventory` table (`blood_type TEXT NOT NULL UNIQUE`). -/
structure LegacyInventoryRow where
  id : Int
  bloodType : String
  units : Int
  deletedAt : Option String
deriving Repr, DecidableEq

/-- A database still carrying the legacy text blood-type columns.  The
`blood_types` table may already exist (it is created with IF NOT EXISTS by
`initDB` before the migration runs). -/
structure LegacyDB where
  bloodTypes : List (Int × String)
  nextBloodTypeID : Int
  donors : List LegacyDonorRow
  recipients : List LegacyRecipientRow
  donations : List LegacyDonationRow
  requests : List LegacyRequestRow
  inventory : List LegacyInventoryRow
deriving Repr, DecidableEq

/-- A database as seen by `migrateTo3NF`: either the legacy shape (the
probe finds `donors.blood_type`) or the normalized shape (it does not). -/
inductive MigDB where
  | legacy (db : LegacyDB)
  | migrated (db : Store)
deriving Repr, DecidableEq

/-- `tableHasColumn(db, "donors", "blood_type")`: true exactly on the
legacy shape, whose donors table still has the text column. -/
def hasLegacyBloodTypeColumn : MigDB → Bool
  | .legacy _ => true
  | .migrated _ => false

/-- `INSERT OR IGNORE INTO blood_types (type) VALUES (?)` on the lookup
table with its AUTOINCREMENT counter. -/
def insertOrIgnoreBloodType : (List (Int × String) × Int) → String → (List (Int × String) × Int)
  | (bts, next), label =>
    if (bts.find? (fun p => p.2 == label)).isSome then (bts, next)
    else (bts ++ [(next, label)], next + 1)

/-- `INSERT OR IGNORE INTO blood_types (type) SELECT DISTINCT
UPPER(TRIM(blood_type)) FROM t WHERE blood_type IS NOT NULL AND
TRIM(blood_type) <> ''`, scanning the rows in table order (first occurrence
gets the fresh id, matching SQLite's scan of the un-indexed column). -/
def insertDistinctLabels (acc : List (Int × String) × Int) (labels : List String) :
    List (Int × String) × Int :=
  labels.foldl (fun acc2 raw =>
    if trimSpace raw = "" then acc2
    else insertOrIgnoreBloodType acc2 (normalizeBloodType raw)) acc

/-- `COALESCE((SELECT id FROM blood_types WHERE type = UPPER(TRIM(x))),
(SELECT id FROM blood_types WHERE type = 'UNKNOWN'))` used when copying
rows into the rebuilt tables. -/
def resolveLabelOrUnknown (bts : List (Int × String)) (raw : String) : Int :=
  match bts.find? (fun p => p.2 == normalizeBloodType raw) with
  | some p => p.1
  | none =>
      match bts.find? (fun p => p.2 == "UNKNOWN") with
      | some p => p.1
      | none => 0

/-- AUTOINCREMENT state of a rebuilt table after rows with explicit ids
were inserted into it. -/
def nextIDAfter (ids : List Int) : Int :=
  (ids.foldl (fun a b => max a b) 0) + 1

/-- `migrateTo3NF` from main.go.  On the normalized shape the probe fails
and the procedure is a no-op; on the legacy shape it populates the lookup
table from donors, recipients and inventory (plus the UNKNOWN sentinel),
rebuilds every entity table with blood-type refs in place of text labels,
and swaps the rebuilt tables in. -/
def migrateTo3NF (db : MigDB) : MigDB :=
  match db with
  | .migrated st => .migrated st
  | .legacy l =>
      let acc1 := insertDistinctLabels (l.bloodTypes, l.nextBloodTypeID)
        (l.donors.map (fun d => d.bloodType))
      let acc2 := insertDistinctLabels acc1 (l.recipients.map (fun r => r.bloodType))
      let acc3 := insertDistinctLabels acc2 (l.inventory.map (fun i => i.bloodType))
      let acc4 := insertOrIgnoreBloodType acc3 ("UNKNOWN")
      let bts := acc4.1
      let donors := l.donors.map (fun d =>
        DonorRow.mk d.id d.name (resolveLabelOrUnknown bts d.bloodType) d.phone d.city
          d.createdAt d.deletedAt)
      let recipients := l.recipients.map (fun r =>
        RecipientRow.mk r.id r.name (resolveLabelOrUnknown bts r.bloodType) r.phone r.hospital
          r.createdAt r.deletedAt)
      let donations := l.donations.map (fun d =>
        DonationRow.mk d.id d.donorID d.units d.donationDate d.expiryDate d.deletedAt)
      let requests := l.requests.map (fun r =>
        RequestRow.mk r.id r.recipientID r.units r.status r.requestDate r.deletedAt)
      let inventory := l.inventory.map (fun i =>
        InventoryRow.mk i.id (resolveLabelOrUnknown bts i.bloodType) i.units i.deletedAt)
      .migrated
        { bloodTypes := bts
          donors := donors
          recipients := recipients
          donations := donations
          inventory := inventory
          requests := requests
          nextBloodTypeID := acc4.2
          nextDonorID := nextIDAfter (donors.map (fun d => d.id))
          nextRecipientID := nextIDAfter (recipients.map (fun r => r.id))
          nextDonationID := nextIDAfter (donations.map (fun d => d.id))
          nextInventoryID := nextIDAfter (inventory.map (fun i => i.id))
          nextRequestID := nextIDAfter (requests.map (fun r => r.id)) }

/-- A small legacy database: one donor with a denormalized label, one
inventory row with a blank label. -/
def legacySample : LegacyDB :=
  { bloodTypes := [],
    nextBloodTypeID := 1,
    donors := [⟨1, "Dana", " o+ ", "", "", "2024-01-01", none⟩],
    recipients := [],
    donations := [⟨1, 1, "o+", 2, "2024-01-02", "2024-12-01", none⟩],
    requests := [],
    inventory := [⟨1, "  ", 2, none⟩] }

example :
    migrateTo3NF (.legacy legacySample) =
      .migrated
        { bloodTypes := [(1, "O+"), (2, "UNKNOWN")],
          donors := [⟨1, "Dana", 1, "", "", "2024-01-01", none⟩],
          recipients := [],
          donations := [⟨1, 1, 2, "2024-01-02", "2024-12-01", none⟩],
          inventory := [⟨1, 2, 2, none⟩],
          requests := [],
          nextBloodTypeID := 3,
          nextDonorID := 2,
          nextRecipientID := 1,
          nextDonationID := 2,
          nextInventoryID := 2,
          nextRequestID := 1 } := by decide

/-- Claim C5: `migrateTo3NF` is idempotent — a second run returns exactly
the database the first run produced (the rebuilt donors table no longer has
the legacy text column, so the probe makes the second run a no-op) — and on
a database without the legacy column a run changes nothing at all. -/
theorem c5_migration_idempotent :
    (∀ db : MigDB, migrateTo3NF (migrateTo3NF db) = migrateTo3NF db) ∧
    (∀ db : MigDB, hasLegacyBloodTypeColumn db = false → migrateTo3NF db = db) := by
  constructor
  · intro db
    cases db with
    | migrated st => rfl
    | legacy l => rfl
  · intro db h
    cases db with
    | migrated st => rfl
    | legacy l => simp [hasLegacyBloodTypeColumn] at h

/-- Witness for C5: a run on an already-normalized database (probe false)
returns it unchanged. -/
theorem c5_witness :
    migrateTo3NF (.migrated emptyStore) = .migrated emptyStore :=
  c5_migration_idempotent.2 (.migrated emptyStore) (by decide)

end BloodBank
